import Mathlib

/-!
Shallow embedding of the core of the kanidm ldap3 command-line client
(src/lib.rs), together with proofs about its URL dispatch, connect loop,
TLS bring-up, message-id allocation and bind state machine.

Machine integers: the client's msg_counter is a Rust i32; it is modelled
as an Int together with i32wrap, the two's-complement wrap-around of
release-mode Rust addition.

I/O: the network is modelled as an oracle.  The read half of the framed
transport carries the list of future read events (a decoded message, an
I/O error, or end of stream when the list runs out); the outcome of each
write is passed as an explicit parameter.  Panics (the unimplemented!
arm of the From conversion) are modelled as a distinct outcome.
-/

set_option autoImplicit false

/-- Two's-complement wrap of an integer into the i32 range, the semantics of
release-mode Rust integer addition. -/
def i32wrap (x : Int) : Int := (x + 2 ^ 31) % 2 ^ 32 - 2 ^ 31

/-- Result codes of the collaborating ldap3_proto crate: an integer-valued
enumeration per RFC 4511 (0 = Success, 49 = InvalidCredentials, ...). -/
structure LdapResultCode where
  val : Int
deriving DecidableEq, Repr

def LdapResultCode.success : LdapResultCode := ⟨0⟩

def LdapResultCode.operationsError : LdapResultCode := ⟨1⟩

def LdapResultCode.protocolError : LdapResultCode := ⟨2⟩

def LdapResultCode.invalidCredentials : LdapResultCode := ⟨49⟩

/-- The error taxonomy of src/lib.rs (enum LdapError, repr(i32)). -/
inductive LdapError
  | InvalidUrl
  | LdapiNotSupported
  | UseCldapTool
  | ResolverError
  | ConnectError
  | TlsError
  | PasswordNotFound
  | AnonymousInvalidState
  | TransportWriteError
  | TransportReadError
  | InvalidProtocolState
  | InvalidCredentials
deriving DecidableEq, Repr

/-- The stable i32 discriminants of enum LdapError. -/
def LdapError.code : LdapError → Int
  | .InvalidUrl => -1
  | .LdapiNotSupported => -2
  | .UseCldapTool => -3
  | .ResolverError => -4
  | .ConnectError => -5
  | .TlsError => -6
  | .PasswordNotFound => -7
  | .AnonymousInvalidState => -8
  | .TransportWriteError => -9
  | .TransportReadError => -10
  | .InvalidProtocolState => -11
  | .InvalidCredentials => 49

/-- impl From LdapResultCode for LdapError: only InvalidCredentials is mapped;
every other arm is an unimplemented! panic, modelled as none. -/
def LdapError.fromResultCode (c : LdapResultCode) : Option LdapError :=
  if c = LdapResultCode.invalidCredentials then some LdapError.InvalidCredentials
  else none

/-- LdapBindCred of ldap3_proto: the core only uses Simple. -/
inductive LdapBindCred
  | Simple (pw : String)
deriving DecidableEq, Repr

/-- LdapBindRequest of ldap3_proto. -/
structure LdapBindRequest where
  dn : String
  cred : LdapBindCred
deriving DecidableEq, Repr

/-- LdapResult of ldap3_proto (RFC 4511 LDAPResult). -/
structure LdapResult where
  code : LdapResultCode
  matcheddn : String
  message : String
  referral : List String
deriving DecidableEq, Repr

/-- LdapBindResponse of ldap3_proto. -/
structure LdapBindResponse where
  res : LdapResult
  saslcreds : Option (List Nat)
deriving DecidableEq, Repr

/-- The protocol-operation variants of ldap3_proto used by the core; further
variants exist and are all treated alike by bind's catch-all arm, so the
search variants stand in for them. -/
inductive LdapOp
  | BindRequest (r : LdapBindRequest)
  | BindResponse (r : LdapBindResponse)
  | UnbindRequest
  | SearchRequest
  | SearchResultEntry
  | SearchResultDone (r : LdapResult)
deriving DecidableEq, Repr

/-- LdapMsg of ldap3_proto; ctrl carries uninterpreted controls. -/
structure LdapMsg where
  msgid : Int
  op : LdapOp
  ctrl : List Unit
deriving DecidableEq, Repr

/-- One event produced by the framed read half: a decoded message
(Some(Ok(m))) or a codec/IO error (Some(Err(e))).  End of stream (None) is
modelled by the event list running out. -/
inductive ReadEvent
  | msg (m : LdapMsg)
  | ioError
deriving DecidableEq, Repr

/-- A FramedRead half: the id of the underlying split stream plus the
scripted future read events. -/
structure FramedRead where
  stream : Nat
  incoming : List ReadEvent
deriving DecidableEq, Repr

/-- One step of the underlying framed stream: returns the rest of the half and
Option (Result LdapMsg) exactly as tokio FramedRead::next does (none = EOF). -/
def FramedRead.step : FramedRead → FramedRead × Option (Except Unit LdapMsg)
  | ⟨s, []⟩ => (⟨s, []⟩, none)
  | ⟨s, ReadEvent.msg m :: rest⟩ => (⟨s, rest⟩, some (Except.ok m))
  | ⟨s, ReadEvent.ioError :: rest⟩ => (⟨s, rest⟩, some (Except.error ()))

/-- A FramedWrite half: the id of the underlying split stream.  The success of
each send is an oracle parameter, so the half itself holds no event state. -/
structure FramedWrite where
  stream : Nat
deriving DecidableEq, Repr

/-- Whether a single framed send succeeds or hits a codec/IO error. -/
inductive WriteOutcome
  | ok
  | ioError
deriving DecidableEq, Repr

/-- enum LdapReadTransport of src/lib.rs: Plain or Tls framed read half. -/
inductive LdapReadTransport
  | Plain (f : FramedRead)
  | Tls (f : FramedRead)
deriving DecidableEq, Repr

/-- enum LdapWriteTransport of src/lib.rs: Plain or Tls framed write half. -/
inductive LdapWriteTransport
  | Plain (f : FramedWrite)
  | Tls (f : FramedWrite)
deriving DecidableEq, Repr

/-- The tag of a transport variant. -/
inductive TransportKind
  | Plain
  | Tls
deriving DecidableEq, Repr

def LdapReadTransport.kind : LdapReadTransport → TransportKind
  | .Plain _ => .Plain
  | .Tls _ => .Tls

def LdapReadTransport.stream : LdapReadTransport → Nat
  | .Plain f => f.stream
  | .Tls f => f.stream

def LdapReadTransport.incoming : LdapReadTransport → List ReadEvent
  | .Plain f => f.incoming
  | .Tls f => f.incoming

def LdapWriteTransport.kind : LdapWriteTransport → TransportKind
  | .Plain _ => .Plain
  | .Tls _ => .Tls

def LdapWriteTransport.stream : LdapWriteTransport → Nat
  | .Plain f => f.stream
  | .Tls f => f.stream

/-- The transpose().map_err(TransportReadError)? .ok_or_else(TransportReadError)
chain of LdapReadTransport::next: an Err or EOF both collapse to
TransportReadError. -/
def readEventResult : Option (Except Unit LdapMsg) → Except LdapError LdapMsg
  | some (Except.error _) => Except.error LdapError.TransportReadError
  | some (Except.ok m) => Except.ok m
  | none => Except.error LdapError.TransportReadError

/-- LdapReadTransport::next of src/lib.rs: dispatch on the variant, pull one
event off the framed half, map errors and EOF to TransportReadError. -/
def LdapReadTransport.next : LdapReadTransport → LdapReadTransport × Except LdapError LdapMsg
  | .Plain f =>
      let p := f.step
      (.Plain p.1, readEventResult p.2)
  | .Tls f =>
      let p := f.step
      (.Tls p.1, readEventResult p.2)

/-- LdapWriteTransport::send of src/lib.rs: both variants map a sink error to
TransportWriteError.  The message itself leaves the client, so only the
oracle outcome matters here. -/
def LdapWriteTransport.send (t : LdapWriteTransport) (m : LdapMsg) (w : WriteOutcome) :
    Except LdapError Unit :=
  match t, m, w with
  | .Plain _, _, .ok => Except.ok ()
  | .Plain _, _, .ioError => Except.error LdapError.TransportWriteError
  | .Tls _, _, .ok => Except.ok ()
  | .Tls _, _, .ioError => Except.error LdapError.TransportWriteError

/-- struct LdapClient of src/lib.rs. -/
structure LdapClient where
  read_transport : LdapReadTransport
  write_transport : LdapWriteTransport
  msg_counter : Int
deriving DecidableEq, Repr

/-- LdapClient::get_next_msgid: return the current counter, then increment it
(post-increment; the += 1 is i32 arithmetic). -/
def LdapClient.get_next_msgid (c : LdapClient) : Int × LdapClient :=
  (c.msg_counter, { c with msg_counter := i32wrap (c.msg_counter + 1) })

/-- Outcome of a bind call: Ok(()), Err(e), or a panic raised by the
unimplemented! arm of From LdapResultCode for LdapError. -/
inductive BindOutcome
  | ok
  | err (e : LdapError)
  | panicked
deriving DecidableEq, Repr

/-- The response-handling closure inside LdapClient::bind (the and_then over
msg.op): Success is Ok, any other BindResponse code goes through
LdapError::from (which panics when unmapped), any other variant is
InvalidProtocolState.  The message id is never inspected. -/
def bindHandleResponse (m : LdapMsg) : BindOutcome :=
  match m.op with
  | LdapOp.BindResponse res =>
      if res.res.code = LdapResultCode.success then BindOutcome.ok
      else
        match LdapError.fromResultCode res.res.code with
        | some e => BindOutcome.err e
        | none => BindOutcome.panicked
  | _ => BindOutcome.err LdapError.InvalidProtocolState

/-- LdapClient::bind of src/lib.rs: allocate the next message id, send a
BindRequest with Simple credentials, then read exactly one response and
classify it.  On a send failure the read half is not touched. -/
def LdapClient.bind (c : LdapClient) (dn : String) (pw : String) (w : WriteOutcome) :
    LdapClient × BindOutcome :=
  let alloc := c.get_next_msgid
  let msgid := alloc.1
  let c1 := alloc.2
  let msg : LdapMsg :=
    { msgid := msgid
      op := LdapOp.BindRequest { dn := dn, cred := LdapBindCred.Simple pw }
      ctrl := [] }
  match c1.write_transport.send msg w with
  | Except.error e => (c1, BindOutcome.err e)
  | Except.ok _ =>
      let rd := c1.read_transport.next
      let c2 := { c1 with read_transport := rd.1 }
      match rd.2 with
      | Except.error e => (c2, BindOutcome.err e)
      | Except.ok m => (c2, bindHandleResponse m)

/-- The scheme dispatch at the top of LdapClient::new. -/
def schemeDispatch (scheme : String) : Except LdapError Bool :=
  if scheme = "ldapi" then Except.error LdapError.LdapiNotSupported
  else if scheme = "cldap" then Except.error LdapError.UseCldapTool
  else if scheme = "ldap" then Except.ok false
  else if scheme = "ldaps" then Except.ok true
  else Except.error LdapError.InvalidUrl

/-- The default-port closure passed to url.socket_addrs in LdapClient::new. -/
def defaultPort (need_tls : Bool) : Nat := if need_tls then 636 else 389

/-- Outcome of racing TcpStream::connect on one address against a fresh
timeout timer. -/
inductive ConnectAttempt
  | success
  | failure
  | timeout
deriving DecidableEq, Repr

/-- The connect loop of LdapClient::new: addresses in resolver order, each
paired with its oracle outcome; failure and timeout both continue; the first
success returns its address; an exhausted iterator is ConnectError. -/
def connectLoop : List (Nat × ConnectAttempt) → Except LdapError Nat
  | [] => Except.error LdapError.ConnectError
  | (addr, ConnectAttempt.success) :: _ => Except.ok addr
  | (_, ConnectAttempt.failure) :: rest => connectLoop rest
  | (_, ConnectAttempt.timeout) :: rest => connectLoop rest

/-- openssl SslVerifyMode values used by the core. -/
inductive SslVerifyMode
  | NONE
  | PEER
deriving DecidableEq, Repr

/-- The slice of SslConnector state the core touches: the verify mode. -/
structure SslContextParams where
  verify : SslVerifyMode
deriving DecidableEq, Repr

/-- SslConnector::builder(SslMethod::tls_client()): openssl's connector
builder starts with peer verification on. -/
def sslConnectorBuilder : SslContextParams := { verify := SslVerifyMode.PEER }

/-- SslConnectorBuilder::set_verify. -/
def set_verify (p : SslContextParams) (m : SslVerifyMode) : SslContextParams :=
  { p with verify := m }

/-- Which TLS bring-up steps fail: builder construction, Ssl::new or
SslStream::new, and the handshake (SslStream::connect). -/
structure TlsEnv where
  builderFails : Bool
  sslNewFails : Bool
  handshakeFails : Bool
deriving DecidableEq, Repr

/-- The ldaps arm of LdapClient::new: build the connector (set_verify NONE),
wrap the stream, handshake; every error collapses to TlsError.  Returns the
final context parameters and the wrapped stream id. -/
def tlsSetup (env : TlsEnv) (stream : Nat) : Except LdapError (SslContextParams × Nat) :=
  if env.builderFails then Except.error LdapError.TlsError
  else
    let tls_parms := set_verify sslConnectorBuilder SslVerifyMode.NONE
    if env.sslNewFails then Except.error LdapError.TlsError
    else if env.handshakeFails then Except.error LdapError.TlsError
    else Except.ok (tls_parms, stream)

/-- The oracle environment of one LdapClient::new call: whether
url.socket_addrs errors, the resolver-ordered addresses with their connect
outcomes, the TLS step outcomes, and the future incoming read events. -/
structure NewEnv where
  resolveFails : Bool
  addrs : List (Nat × ConnectAttempt)
  tls : TlsEnv
  incoming : List ReadEvent
deriving DecidableEq, Repr

/-- LdapClient::new of src/lib.rs: scheme dispatch, resolution, the connect
loop, optional TLS bring-up, then tokio::io::split of the single stream into
the two framed halves; msg_counter starts at 1. -/
def LdapClient.new (scheme : String) (env : NewEnv) : Except LdapError LdapClient :=
  match schemeDispatch scheme with
  | Except.error e => Except.error e
  | Except.ok need_tls =>
      if env.resolveFails then Except.error LdapError.ResolverError
      else if env.addrs = [] then Except.error LdapError.ResolverError
      else
        match connectLoop env.addrs with
        | Except.error e => Except.error e
        | Except.ok tcpstream =>
            if need_tls then
              match tlsSetup env.tls tcpstream with
              | Except.error e => Except.error e
              | Except.ok tls =>
                  Except.ok
                    { read_transport := LdapReadTransport.Tls ⟨tls.2, env.incoming⟩
                      write_transport := LdapWriteTransport.Tls ⟨tls.2⟩
                      msg_counter := 1 }
            else
              Except.ok
                { read_transport := LdapReadTransport.Plain ⟨tcpstream, env.incoming⟩
                  write_transport := LdapWriteTransport.Plain ⟨tcpstream⟩
                  msg_counter := 1 }

/-- The client after k successive get_next_msgid calls. -/
def clientAfter (c : LdapClient) : Nat → LdapClient
  | 0 => c
  | k + 1 => ((clientAfter c k).get_next_msgid).2

/-- The value returned by the n-th get_next_msgid call (1-indexed). -/
def nthMsgid (c : LdapClient) (n : Nat) : Int :=
  ((clientAfter c (n - 1)).get_next_msgid).1

/-- A concrete plain-transport client fixture with msg_counter 1. -/
def testClient (incoming : List ReadEvent) : LdapClient :=
  { read_transport := LdapReadTransport.Plain ⟨0, incoming⟩
    write_transport := LdapWriteTransport.Plain ⟨0⟩
    msg_counter := 1 }

/-- A BindResponse message with the given id and result code and empty
diagnostic fields. -/
def bindResponseMsg (msgid : Int) (code : LdapResultCode) : LdapMsg :=
  { msgid := msgid
    op := LdapOp.BindResponse
      { res := { code := code, matcheddn := "", message := "", referral := [] }
        saslcreds := none }
    ctrl := [] }

/-- Replace the scripted incoming events of a read half, keeping its variant
and stream. -/
def withIncoming (t : LdapReadTransport) (evs : List ReadEvent) : LdapReadTransport :=
  match t with
  | LdapReadTransport.Plain f => LdapReadTransport.Plain { f with incoming := evs }
  | LdapReadTransport.Tls f => LdapReadTransport.Tls { f with incoming := evs }

/-- A concrete plain client whose counter sits at i32::MAX. -/
def maxCounterClient : LdapClient :=
  { read_transport := LdapReadTransport.Plain ⟨0, []⟩
    write_transport := LdapWriteTransport.Plain ⟨0⟩
    msg_counter := 2 ^ 31 - 1 }

/-- A concrete environment whose second address connects and whose TLS steps
all succeed. -/
def envTls : NewEnv :=
  { resolveFails := false
    addrs := [(1, ConnectAttempt.failure), (2, ConnectAttempt.success)]
    tls := ⟨false, false, false⟩
    incoming := [] }

/-- The client LdapClient.new "ldaps" envTls constructs. -/
def tlsClient : LdapClient :=
  { read_transport := LdapReadTransport.Tls ⟨2, []⟩
    write_transport := LdapWriteTransport.Tls ⟨2⟩
    msg_counter := 1 }

/-- A concrete all-quiet environment. -/
def testEnv : NewEnv :=
  { resolveFails := false, addrs := [], tls := ⟨false, false, false⟩, incoming := [] }

/-! ## Helper lemmas about the transport and bind -/

theorem send_ok (t : LdapWriteTransport) (m : LdapMsg) :
    t.send m WriteOutcome.ok = Except.ok () := by
  cases t <;> rfl

theorem send_ioError (t : LdapWriteTransport) (m : LdapMsg) :
    t.send m WriteOutcome.ioError = Except.error LdapError.TransportWriteError := by
  cases t <;> rfl

theorem next_kind (t : LdapReadTransport) : (t.next).1.kind = t.kind := by
  cases t with
  | Plain f =>
    obtain ⟨s, inc⟩ := f
    cases inc with
    | nil => rfl
    | cons e rest => cases e <;> rfl
  | Tls f =>
    obtain ⟨s, inc⟩ := f
    cases inc with
    | nil => rfl
    | cons e rest => cases e <;> rfl

theorem next_stream (t : LdapReadTransport) : (t.next).1.stream = t.stream := by
  cases t with
  | Plain f =>
    obtain ⟨s, inc⟩ := f
    cases inc with
    | nil => rfl
    | cons e rest => cases e <;> rfl
  | Tls f =>
    obtain ⟨s, inc⟩ := f
    cases inc with
    | nil => rfl
    | cons e rest => cases e <;> rfl

theorem next_incoming (t : LdapReadTransport) :
    (t.next).1.incoming = t.incoming.tail := by
  cases t with
  | Plain f =>
    obtain ⟨s, inc⟩ := f
    cases inc with
    | nil => rfl
    | cons e rest => cases e <;> rfl
  | Tls f =>
    obtain ⟨s, inc⟩ := f
    cases inc with
    | nil => rfl
    | cons e rest => cases e <;> rfl

theorem next_result_nil (t : LdapReadTransport) (h : t.incoming = []) :
    (t.next).2 = Except.error LdapError.TransportReadError := by
  cases t with
  | Plain f =>
    obtain ⟨s, inc⟩ := f
    simp only [LdapReadTransport.incoming] at h
    subst h
    rfl
  | Tls f =>
    obtain ⟨s, inc⟩ := f
    simp only [LdapReadTransport.incoming] at h
    subst h
    rfl

theorem next_result_msg (t : LdapReadTransport) (m : LdapMsg) (rest : List ReadEvent)
    (h : t.incoming = ReadEvent.msg m :: rest) :
    (t.next).2 = Except.ok m := by
  cases t with
  | Plain f =>
    obtain ⟨s, inc⟩ := f
    simp only [LdapReadTransport.incoming] at h
    subst h
    rfl
  | Tls f =>
    obtain ⟨s, inc⟩ := f
    simp only [LdapReadTransport.incoming] at h
    subst h
    rfl

theorem next_result_ioError (t : LdapReadTransport) (rest : List ReadEvent)
    (h : t.incoming = ReadEvent.ioError :: rest) :
    (t.next).2 = Except.error LdapError.TransportReadError := by
  cases t with
  | Plain f =>
    obtain ⟨s, inc⟩ := f
    simp only [LdapReadTransport.incoming] at h
    subst h
    rfl
  | Tls f =>
    obtain ⟨s, inc⟩ := f
    simp only [LdapReadTransport.incoming] at h
    subst h
    rfl

theorem bind_write_ioError (c : LdapClient) (dn pw : String) :
    c.bind dn pw WriteOutcome.ioError =
      ({ c with msg_counter := i32wrap (c.msg_counter + 1) },
        BindOutcome.err LdapError.TransportWriteError) := by
  obtain ⟨rt, wt, ctr⟩ := c
  cases wt <;> rfl

theorem bind_write_ok (c : LdapClient) (dn pw : String) :
    c.bind dn pw WriteOutcome.ok =
      ({ c with msg_counter := i32wrap (c.msg_counter + 1),
                read_transport := (c.read_transport.next).1 },
        match (c.read_transport.next).2 with
        | Except.error e => BindOutcome.err e
        | Except.ok m => bindHandleResponse m) := by
  obtain ⟨rt, wt, ctr⟩ := c
  cases wt <;>
    simp only [LdapClient.bind, LdapClient.get_next_msgid, LdapWriteTransport.send] <;>
    cases hr : rt.next.2 <;> simp [hr]

theorem bind_counter (c : LdapClient) (dn pw : String) (w : WriteOutcome) :
    (c.bind dn pw w).1.msg_counter = i32wrap (c.msg_counter + 1) := by
  cases w
  · rw [bind_write_ok]
  · rw [bind_write_ioError]

theorem bind_write_transport (c : LdapClient) (dn pw : String) (w : WriteOutcome) :
    (c.bind dn pw w).1.write_transport = c.write_transport := by
  cases w
  · rw [bind_write_ok]
  · rw [bind_write_ioError]

theorem bind_read_kind (c : LdapClient) (dn pw : String) (w : WriteOutcome) :
    (c.bind dn pw w).1.read_transport.kind = c.read_transport.kind := by
  cases w
  · rw [bind_write_ok]
    exact next_kind c.read_transport
  · rw [bind_write_ioError]

theorem bind_read_stream (c : LdapClient) (dn pw : String) (w : WriteOutcome) :
    (c.bind dn pw w).1.read_transport.stream = c.read_transport.stream := by
  cases w
  · rw [bind_write_ok]
    exact next_stream c.read_transport
  · rw [bind_write_ioError]

theorem bind_read_ioError (c : LdapClient) (dn pw : String) :
    (c.bind dn pw WriteOutcome.ioError).1.read_transport = c.read_transport := by
  rw [bind_write_ioError]

theorem bind_read_incoming_ok (c : LdapClient) (dn pw : String) :
    (c.bind dn pw WriteOutcome.ok).1.read_transport.incoming =
      c.read_transport.incoming.tail := by
  rw [bind_write_ok]
  exact next_incoming c.read_transport

theorem bind_outcome_ok (c : LdapClient) (dn pw : String) (m : LdapMsg)
    (rest : List ReadEvent) (hin : c.read_transport.incoming = ReadEvent.msg m :: rest) :
    (c.bind dn pw WriteOutcome.ok).2 = bindHandleResponse m := by
  rw [bind_write_ok]
  rw [next_result_msg c.read_transport m rest hin]

theorem bind_outcome_eof (c : LdapClient) (dn pw : String)
    (hin : c.read_transport.incoming = []) :
    (c.bind dn pw WriteOutcome.ok).2 = BindOutcome.err LdapError.TransportReadError := by
  rw [bind_write_ok]
  rw [next_result_nil c.read_transport hin]

theorem bind_outcome_readError (c : LdapClient) (dn pw : String) (rest : List ReadEvent)
    (hin : c.read_transport.incoming = ReadEvent.ioError :: rest) :
    (c.bind dn pw WriteOutcome.ok).2 = BindOutcome.err LdapError.TransportReadError := by
  rw [bind_write_ok]
  rw [next_result_ioError c.read_transport rest hin]

theorem bindHandleResponse_msgid (m : LdapMsg) (mid : Int) :
    bindHandleResponse { m with msgid := mid } = bindHandleResponse m := by
  obtain ⟨i, o, cs⟩ := m
  rfl

theorem withIncoming_incoming (t : LdapReadTransport) (evs : List ReadEvent) :
    (withIncoming t evs).incoming = evs := by
  cases t <;> rfl

theorem i32wrap_eq_self (x : Int) (h1 : -(2 ^ 31) ≤ x) (h2 : x ≤ 2 ^ 31 - 1) :
    i32wrap x = x := by
  unfold i32wrap
  rw [Int.emod_eq_of_lt (by omega) (by omega)]
  omega

theorem clientAfter_msg_counter (c : LdapClient) (h : c.msg_counter = 1) (k : Nat)
    (hk : k ≤ 2 ^ 31 - 2) : (clientAfter c k).msg_counter = 1 + k := by
  induction k with
  | zero => simpa [clientAfter]
  | succ k ih =>
    have hk2 : k ≤ 2 ^ 31 - 2 := by omega
    simp only [clientAfter, LdapClient.get_next_msgid, ih hk2]
    rw [i32wrap_eq_self (1 + k + 1) (by omega) (by omega)]
    push_cast
    ring

/-! ## Claim theorems -/

/-- C1 counterexample: a BindResponse whose code is OperationsError (1), which
is neither Success nor InvalidCredentials, makes bind hit the unimplemented!
arm of From LdapResultCode for LdapError and panic; it does not return
InvalidProtocolState. -/
theorem claim_C1_counterexample :
    (LdapClient.bind
        (testClient [ReadEvent.msg (bindResponseMsg 1 LdapResultCode.operationsError)])
        "" "" WriteOutcome.ok).2 = BindOutcome.panicked ∧
    BindOutcome.panicked ≠ BindOutcome.err LdapError.InvalidProtocolState := by
  exact ⟨rfl, by decide⟩

/-- C1 amended: for every bind call whose single response is a BindResponse
with a result code that is neither Success nor InvalidCredentials, bind
panics in the From conversion (unimplemented!); no LdapError, in particular
not InvalidProtocolState, is returned. -/
theorem claim_C1_amended (c : LdapClient) (dn pw : String) (m : LdapMsg)
    (rest : List ReadEvent) (res : LdapBindResponse)
    (hin : c.read_transport.incoming = ReadEvent.msg m :: rest)
    (hop : m.op = LdapOp.BindResponse res)
    (h0 : res.res.code ≠ LdapResultCode.success)
    (h49 : res.res.code ≠ LdapResultCode.invalidCredentials) :
    (c.bind dn pw WriteOutcome.ok).2 = BindOutcome.panicked := by
  rw [bind_outcome_ok c dn pw m rest hin]
  simp [bindHandleResponse, hop, LdapError.fromResultCode, h0, h49]

/-- C1 witness: the amended theorem applied to a concrete client whose response
carries result code ProtocolError (2). -/
theorem claim_C1_witness :
    (LdapClient.bind
        (testClient [ReadEvent.msg (bindResponseMsg 7 LdapResultCode.protocolError)])
        "" "" WriteOutcome.ok).2 = BindOutcome.panicked :=
  claim_C1_amended _ "" "" _ [] _ rfl rfl (by decide) (by decide)

/-- C2 counterexample: the outstanding BindRequest is allocated message id 1,
the response arrives with message id 999, yet bind returns success rather
than failing with InvalidProtocolState: the code never compares message
ids. -/
theorem claim_C2_counterexample :
    ((testClient [ReadEvent.msg (bindResponseMsg 999 LdapResultCode.success)]).get_next_msgid).1
        = 1 ∧
    (999 : Int) ≠ 1 ∧
    (LdapClient.bind (testClient [ReadEvent.msg (bindResponseMsg 999 LdapResultCode.success)])
        "" "" WriteOutcome.ok).2 = BindOutcome.ok := by
  exact ⟨rfl, by decide, rfl⟩

/-- C2 amended: bind never inspects the message id of the incoming response;
replacing the message id of the pending response by any other value leaves
the outcome of bind unchanged, so a mismatched id is not detected. -/
theorem claim_C2_amended (c : LdapClient) (dn pw : String) (w : WriteOutcome)
    (m : LdapMsg) (mid : Int) (rest : List ReadEvent)
    (hin : c.read_transport.incoming = ReadEvent.msg m :: rest) :
    (({ c with read_transport :=
          withIncoming c.read_transport (ReadEvent.msg { m with msgid := mid } :: rest) }
        : LdapClient).bind dn pw w).2 = (c.bind dn pw w).2 := by
  cases w
  case ok =>
    rw [bind_outcome_ok _ dn pw { m with msgid := mid } rest
      (withIncoming_incoming c.read_transport _)]
    rw [bind_outcome_ok c dn pw m rest hin]
    exact bindHandleResponse_msgid m mid
  case ioError =>
    rw [bind_write_ioError, bind_write_ioError]

/-- C2 witness: the amended theorem applied to a concrete client, replacing
the response message id 1 by 999. -/
theorem claim_C2_witness :
    (({ testClient [ReadEvent.msg (bindResponseMsg 1 LdapResultCode.success)] with
          read_transport :=
            withIncoming
              (testClient [ReadEvent.msg (bindResponseMsg 1 LdapResultCode.success)]).read_transport
              [ReadEvent.msg { bindResponseMsg 1 LdapResultCode.success with msgid := 999 }] }
        : LdapClient).bind "" "" WriteOutcome.ok).2 =
      ((testClient [ReadEvent.msg (bindResponseMsg 1 LdapResultCode.success)]).bind
        "" "" WriteOutcome.ok).2 :=
  claim_C2_amended _ "" "" WriteOutcome.ok (bindResponseMsg 1 LdapResultCode.success) 999 [] rfl

/-- C3: with exactly one pending response, bind returns success on a Success
BindResponse, InvalidCredentials on a code-49 BindResponse,
InvalidProtocolState on any other operation variant, and
TransportReadError on a read error or end of stream. -/
theorem claim_C3 (c : LdapClient) (dn pw : String) :
    (∀ m rest res, c.read_transport.incoming = ReadEvent.msg m :: rest →
        m.op = LdapOp.BindResponse res → res.res.code = LdapResultCode.success →
        (c.bind dn pw WriteOutcome.ok).2 = BindOutcome.ok) ∧
    (∀ m rest res, c.read_transport.incoming = ReadEvent.msg m :: rest →
        m.op = LdapOp.BindResponse res →
        res.res.code = LdapResultCode.invalidCredentials →
        (c.bind dn pw WriteOutcome.ok).2 = BindOutcome.err LdapError.InvalidCredentials) ∧
    (∀ m rest, c.read_transport.incoming = ReadEvent.msg m :: rest →
        (∀ res, m.op ≠ LdapOp.BindResponse res) →
        (c.bind dn pw WriteOutcome.ok).2 = BindOutcome.err LdapError.InvalidProtocolState) ∧
    (c.read_transport.incoming = [] →
        (c.bind dn pw WriteOutcome.ok).2 = BindOutcome.err LdapError.TransportReadError) ∧
    (∀ rest, c.read_transport.incoming = ReadEvent.ioError :: rest →
        (c.bind dn pw WriteOutcome.ok).2 = BindOutcome.err LdapError.TransportReadError) := by
  refine ⟨?_, ?_, ?_, ?_, ?_⟩
  · intro m rest res hin hop hcode
    rw [bind_outcome_ok c dn pw m rest hin]
    simp [bindHandleResponse, hop, hcode]
  · intro m rest res hin hop hcode
    rw [bind_outcome_ok c dn pw m rest hin]
    have hne : res.res.code ≠ LdapResultCode.success := by
      rw [hcode]; decide
    simp [bindHandleResponse, hop, hne, LdapError.fromResultCode, hcode]
    decide
  · intro m rest hin hop
    rw [bind_outcome_ok c dn pw m rest hin]
    cases ho : m.op with
    | BindResponse r => exact absurd ho (hop r)
    | BindRequest r => simp [bindHandleResponse, ho]
    | UnbindRequest => simp [bindHandleResponse, ho]
    | SearchRequest => simp [bindHandleResponse, ho]
    | SearchResultEntry => simp [bindHandleResponse, ho]
    | SearchResultDone r => simp [bindHandleResponse, ho]
  · intro hin
    exact bind_outcome_eof c dn pw hin
  · intro rest hin
    exact bind_outcome_readError c dn pw rest hin

/-- C3 witness: the four outcomes at concrete clients: Success response,
code-49 response, a SearchResultEntry response, end of stream, and a read
error. -/
theorem claim_C3_witness :
    (LdapClient.bind (testClient [ReadEvent.msg (bindResponseMsg 1 LdapResultCode.success)])
        "" "" WriteOutcome.ok).2 = BindOutcome.ok ∧
    (LdapClient.bind
        (testClient [ReadEvent.msg (bindResponseMsg 1 LdapResultCode.invalidCredentials)])
        "" "" WriteOutcome.ok).2 = BindOutcome.err LdapError.InvalidCredentials ∧
    (LdapClient.bind (testClient [ReadEvent.msg ⟨1, LdapOp.SearchResultEntry, []⟩])
        "" "" WriteOutcome.ok).2 = BindOutcome.err LdapError.InvalidProtocolState ∧
    (LdapClient.bind (testClient []) "" "" WriteOutcome.ok).2 =
      BindOutcome.err LdapError.TransportReadError ∧
    (LdapClient.bind (testClient [ReadEvent.ioError]) "" "" WriteOutcome.ok).2 =
      BindOutcome.err LdapError.TransportReadError := by
  refine ⟨?_, ?_, ?_, ?_, ?_⟩
  · exact (claim_C3 _ "" "").1 _ [] _ rfl rfl rfl
  · exact (claim_C3 _ "" "").2.1 _ [] _ rfl rfl rfl
  · exact (claim_C3 _ "" "").2.2.1 _ [] rfl (fun res h => LdapOp.noConfusion h)
  · exact (claim_C3 _ "" "").2.2.2.1 rfl
  · exact (claim_C3 _ "" "").2.2.2.2 [] rfl

/-- C4 counterexample: from a fresh client (msg_counter 1), the 2^31-th
get_next_msgid call does not return 2^31: the i32 counter has wrapped and
the call returns -2^31 (a debug build would panic at the same call), so the
claim fails for N = 2^31. -/
theorem claim_C4_counterexample :
    nthMsgid (testClient []) (2 ^ 31) = -(2 ^ 31) ∧ (-(2 ^ 31) : Int) ≠ 2 ^ 31 := by
  constructor
  · have hc := clientAfter_msg_counter (testClient []) rfl (2 ^ 31 - 2) (by norm_num)
    unfold nthMsgid
    have e1 : (2 : Nat) ^ 31 - 1 = (2 ^ 31 - 2) + 1 := by norm_num
    rw [e1]
    have e2 : clientAfter (testClient []) (2 ^ 31 - 2 + 1) =
        ((clientAfter (testClient []) (2 ^ 31 - 2)).get_next_msgid).2 := rfl
    rw [e2]
    simp only [LdapClient.get_next_msgid]
    rw [hc]
    rw [i32wrap]
    norm_num
  · norm_num

/-- C4 amended: for every client with msg_counter 1 (the value LdapClient::new
starts from), the first N calls of get_next_msgid return exactly
1, 2, ..., N with post-increment semantics, provided N does not exceed
i32::MAX = 2^31 - 1; past that bound the i32 counter wraps. -/
theorem claim_C4_amended (c : LdapClient) (h1 : c.msg_counter = 1) (n : Nat)
    (hn1 : 1 ≤ n) (hn : n ≤ 2 ^ 31 - 1) : nthMsgid c n = n := by
  unfold nthMsgid LdapClient.get_next_msgid
  have hc := clientAfter_msg_counter c h1 (n - 1) (by omega)
  simp only [hc]
  omega

/-- C4 witness: the third call on a fresh client returns 3. -/
theorem claim_C4_witness : nthMsgid (testClient []) 3 = 3 :=
  claim_C4_amended (testClient []) rfl 3 (by decide) (by norm_num)

/-- C5: LdapClient::new dispatches on the scheme before touching the network
(the result on a rejected scheme is the same for every oracle environment):
ldapi fails LdapiNotSupported, cldap fails UseCldapTool, any scheme outside
the four named ones fails InvalidUrl, ldap and ldaps select plain and TLS
respectively, and the default port is 389 for ldap and 636 for ldaps. -/
theorem claim_C5 :
    (∀ env, LdapClient.new "ldapi" env = Except.error LdapError.LdapiNotSupported) ∧
    (∀ env, LdapClient.new "cldap" env = Except.error LdapError.UseCldapTool) ∧
    (∀ s env, s ≠ "ldap" → s ≠ "ldaps" → s ≠ "ldapi" → s ≠ "cldap" →
      LdapClient.new s env = Except.error LdapError.InvalidUrl) ∧
    schemeDispatch "ldap" = Except.ok false ∧
    schemeDispatch "ldaps" = Except.ok true ∧
    defaultPort false = 389 ∧
    defaultPort true = 636 := by
  refine ⟨?_, ?_, ?_, rfl, rfl, rfl, rfl⟩
  · intro env
    rfl
  · intro env
    rfl
  · intro s env h1 h2 h3 h4
    have hd : schemeDispatch s = Except.error LdapError.InvalidUrl := by
      unfold schemeDispatch
      rw [if_neg h3, if_neg h4, if_neg h1, if_neg h2]
    simp [LdapClient.new, hd]

/-- C5 witness: an http scheme is rejected as InvalidUrl whatever the
environment holds. -/
theorem claim_C5_witness : LdapClient.new "http" testEnv = Except.error LdapError.InvalidUrl :=
  claim_C5.2.2.1 "http" testEnv (by decide) (by decide) (by decide) (by decide)

/-- C6: an empty resolved address list fails ResolverError; otherwise the
connect loop walks the list in resolver order, skipping failed and timed-out
attempts, returns the first address whose connect wins, and new yields a
client on that stream; when no attempt succeeds the loop, and new with it,
fail ConnectError. -/
theorem claim_C6 :
    (∀ env, env.resolveFails = false → env.addrs = [] →
      LdapClient.new "ldap" env = Except.error LdapError.ResolverError) ∧
    (∀ l, (∀ p ∈ l, p.2 ≠ ConnectAttempt.success) →
      connectLoop l = Except.error LdapError.ConnectError) ∧
    (∀ l1 a l2, (∀ p ∈ l1, p.2 ≠ ConnectAttempt.success) →
      connectLoop (l1 ++ (a, ConnectAttempt.success) :: l2) = Except.ok a) ∧
    (∀ env, env.resolveFails = false → env.addrs ≠ [] →
      connectLoop env.addrs = Except.error LdapError.ConnectError →
      LdapClient.new "ldap" env = Except.error LdapError.ConnectError) ∧
    (∀ env a, env.resolveFails = false →
      connectLoop env.addrs = Except.ok a →
      LdapClient.new "ldap" env = Except.ok
        { read_transport := LdapReadTransport.Plain ⟨a, env.incoming⟩
          write_transport := LdapWriteTransport.Plain ⟨a⟩
          msg_counter := 1 }) := by
  refine ⟨?_, ?_, ?_, ?_, ?_⟩
  · intro env hres hnil
    simp [LdapClient.new, schemeDispatch, hres, hnil]
  · intro l h
    induction l with
    | nil => rfl
    | cons p rest ih =>
      obtain ⟨addr, att⟩ := p
      cases att with
      | success => exact absurd rfl (h (addr, ConnectAttempt.success) (by simp))
      | failure =>
        simp only [connectLoop]
        exact ih fun q hq => h q (by simp [hq])
      | timeout =>
        simp only [connectLoop]
        exact ih fun q hq => h q (by simp [hq])
  · intro l1 a l2 h
    induction l1 with
    | nil => rfl
    | cons p rest ih =>
      obtain ⟨addr, att⟩ := p
      cases att with
      | success => exact absurd rfl (h (addr, ConnectAttempt.success) (by simp))
      | failure =>
        simp only [List.cons_append, connectLoop]
        exact ih fun q hq => h q (by simp [hq])
      | timeout =>
        simp only [List.cons_append, connectLoop]
        exact ih fun q hq => h q (by simp [hq])
  · intro env hres hne hloop
    simp [LdapClient.new, schemeDispatch, hres, hne, hloop]
  · intro env a hres hloop
    have hne : env.addrs ≠ [] := by
      intro hnil
      rw [hnil] at hloop
      exact Except.noConfusion hloop
    simp [LdapClient.new, schemeDispatch, hres, hne, hloop]

/-- C6 witness: with addresses timing out, failing, then succeeding, new
connects to the third address; with only failures it returns ConnectError;
with an empty list it returns ResolverError. -/
theorem claim_C6_witness :
    LdapClient.new "ldap"
        { resolveFails := false
          addrs := [(1, ConnectAttempt.timeout), (2, ConnectAttempt.failure),
                    (3, ConnectAttempt.success)]
          tls := ⟨false, false, false⟩
          incoming := [] } = Except.ok
        { read_transport := LdapReadTransport.Plain ⟨3, []⟩
          write_transport := LdapWriteTransport.Plain ⟨3⟩
          msg_counter := 1 } ∧
    connectLoop [(1, ConnectAttempt.timeout), (2, ConnectAttempt.failure)] =
      Except.error LdapError.ConnectError ∧
    LdapClient.new "ldap" testEnv = Except.error LdapError.ResolverError := by
  refine ⟨?_, ?_, ?_⟩
  · exact claim_C6.2.2.2.2 _ 3 rfl
      (claim_C6.2.2.1 [(1, ConnectAttempt.timeout), (2, ConnectAttempt.failure)] 3 []
        (by decide))
  · exact claim_C6.2.1 _ (by decide)
  · exact claim_C6.1 testEnv rfl rfl

/-- C7 counterexample: a bind that fails with InvalidProtocolState leaves the
client fully operational: a second bind on the very same client succeeds, so
the code neither transitions to a Closed state nor closes the socket on
error. -/
theorem claim_C7_counterexample :
    (LdapClient.bind
        (testClient [ReadEvent.msg ⟨1, LdapOp.SearchResultEntry, []⟩,
                     ReadEvent.msg (bindResponseMsg 2 LdapResultCode.success)])
        "" "" WriteOutcome.ok).2 = BindOutcome.err LdapError.InvalidProtocolState ∧
    (LdapClient.bind
        (LdapClient.bind
          (testClient [ReadEvent.msg ⟨1, LdapOp.SearchResultEntry, []⟩,
                       ReadEvent.msg (bindResponseMsg 2 LdapResultCode.success)])
          "" "" WriteOutcome.ok).1
        "" "" WriteOutcome.ok).2 = BindOutcome.ok :=
  ⟨rfl, rfl⟩

/-- C7 amended: every failing bind surfaces its error to the caller without
internal recovery, but the client is not closed: it keeps the same write
transport and the same read-transport variant and stream, and remains
usable; resources are released only when the caller drops the client. -/
theorem claim_C7_amended (c : LdapClient) (dn pw : String) (w : WriteOutcome)
    (e : LdapError) (h : (c.bind dn pw w).2 = BindOutcome.err e) :
    (c.bind dn pw w).1.write_transport = c.write_transport ∧
    (c.bind dn pw w).1.read_transport.kind = c.read_transport.kind ∧
    (c.bind dn pw w).1.read_transport.stream = c.read_transport.stream :=
  ⟨bind_write_transport c dn pw w, bind_read_kind c dn pw w, bind_read_stream c dn pw w⟩

/-- C7 witness: after a read-error bind, the concrete client keeps its
transports. -/
theorem claim_C7_witness :
    ((testClient [ReadEvent.ioError]).bind "" "" WriteOutcome.ok).1.write_transport =
      (testClient [ReadEvent.ioError]).write_transport ∧
    ((testClient [ReadEvent.ioError]).bind "" "" WriteOutcome.ok).1.read_transport.kind =
      (testClient [ReadEvent.ioError]).read_transport.kind ∧
    ((testClient [ReadEvent.ioError]).bind "" "" WriteOutcome.ok).1.read_transport.stream =
      (testClient [ReadEvent.ioError]).read_transport.stream :=
  claim_C7_amended (testClient [ReadEvent.ioError]) "" "" WriteOutcome.ok
    LdapError.TransportReadError rfl

/-- C8: the TLS context a successful tlsSetup returns has certificate
verification disabled (set_verify SslVerifyMode::NONE), and every failing
step of TLS bring-up (connector construction, stream wrapping, handshake)
makes the setup, and LdapClient::new of an ldaps URL with it, return
TlsError. -/
theorem claim_C8 :
    (∀ env s p out, tlsSetup env s = Except.ok (p, out) → p.verify = SslVerifyMode.NONE) ∧
    (∀ env s, env.builderFails = true → tlsSetup env s = Except.error LdapError.TlsError) ∧
    (∀ env s, env.sslNewFails = true → tlsSetup env s = Except.error LdapError.TlsError) ∧
    (∀ env s, env.handshakeFails = true → tlsSetup env s = Except.error LdapError.TlsError) ∧
    (∀ env a, env.resolveFails = false →
      connectLoop env.addrs = Except.ok a →
      tlsSetup env.tls a = Except.error LdapError.TlsError →
      LdapClient.new "ldaps" env = Except.error LdapError.TlsError) := by
  refine ⟨?_, ?_, ?_, ?_, ?_⟩
  · intro env s p out h
    obtain ⟨b, n2, hsk⟩ := env
    cases b <;> cases n2 <;> cases hsk <;>
      simp [tlsSetup, set_verify, sslConnectorBuilder] at h
    rw [← h.1]
  · intro env s hb
    obtain ⟨b, n2, hsk⟩ := env
    simp only at hb
    subst hb
    simp [tlsSetup]
  · intro env s hn
    obtain ⟨b, n2, hsk⟩ := env
    simp only at hn
    subst hn
    cases b <;> simp [tlsSetup]
  · intro env s hh
    obtain ⟨b, n2, hsk⟩ := env
    simp only at hh
    subst hh
    cases b <;> cases n2 <;> simp [tlsSetup]
  · intro env a hres hloop htls
    have hne : env.addrs ≠ [] := by
      intro hnil
      rw [hnil] at hloop
      exact Except.noConfusion hloop
    simp [LdapClient.new, schemeDispatch, hres, hne, hloop, htls]

/-- C8 witness: the context built when every step succeeds has verify NONE,
and a failing handshake yields TlsError. -/
theorem claim_C8_witness :
    ({ verify := SslVerifyMode.NONE } : SslContextParams).verify = SslVerifyMode.NONE ∧
    tlsSetup ⟨false, false, true⟩ 0 = Except.error LdapError.TlsError :=
  ⟨claim_C8.1 ⟨false, false, false⟩ 5 { verify := SslVerifyMode.NONE } 5 rfl,
   claim_C8.2.2.2.1 ⟨false, false, true⟩ 0 rfl⟩

theorem schemeDispatch_ok_false (s : String) (h : schemeDispatch s = Except.ok false) :
    s = "ldap" := by
  unfold schemeDispatch at h
  by_cases h1 : s = "ldapi"
  · simp [h1] at h
  · by_cases h2 : s = "cldap"
    · simp [h1, h2] at h
    · by_cases h3 : s = "ldap"
      · exact h3
      · by_cases h4 : s = "ldaps"
        · simp [h1, h2, h3, h4] at h
        · simp [h1, h2, h3, h4] at h

theorem schemeDispatch_ok_true (s : String) (h : schemeDispatch s = Except.ok true) :
    s = "ldaps" := by
  unfold schemeDispatch at h
  by_cases h1 : s = "ldapi"
  · simp [h1] at h
  · by_cases h2 : s = "cldap"
    · simp [h1, h2] at h
    · by_cases h3 : s = "ldap"
      · simp [h1, h2, h3] at h
      · by_cases h4 : s = "ldaps"
        · exact h4
        · simp [h1, h2, h3, h4] at h

/-- C9: every client built by LdapClient::new carries read and write halves
split from the same underlying stream with matching variants, Tls exactly
for ldaps and Plain exactly for ldap, and bind never changes the variant or
the stream of either half. -/
theorem claim_C9 (scheme : String) (env : NewEnv) (c : LdapClient)
    (h : LdapClient.new scheme env = Except.ok c) :
    c.read_transport.kind = c.write_transport.kind ∧
    c.read_transport.stream = c.write_transport.stream ∧
    (c.read_transport.kind = TransportKind.Tls ↔ scheme = "ldaps") ∧
    (c.read_transport.kind = TransportKind.Plain ↔ scheme = "ldap") ∧
    (∀ dn pw w, (c.bind dn pw w).1.read_transport.kind = c.read_transport.kind ∧
        (c.bind dn pw w).1.write_transport.kind = c.write_transport.kind ∧
        (c.bind dn pw w).1.read_transport.stream = c.read_transport.stream ∧
        (c.bind dn pw w).1.write_transport.stream = c.write_transport.stream) := by
  have hbind : ∀ dn pw w,
      (c.bind dn pw w).1.read_transport.kind = c.read_transport.kind ∧
      (c.bind dn pw w).1.write_transport.kind = c.write_transport.kind ∧
      (c.bind dn pw w).1.read_transport.stream = c.read_transport.stream ∧
      (c.bind dn pw w).1.write_transport.stream = c.write_transport.stream := by
    intro dn pw w
    refine ⟨bind_read_kind c dn pw w, ?_, bind_read_stream c dn pw w, ?_⟩
    · rw [bind_write_transport c dn pw w]
    · rw [bind_write_transport c dn pw w]
  unfold LdapClient.new at h
  cases hs : schemeDispatch scheme with
  | error e =>
    rw [hs] at h
    exact Except.noConfusion h
  | ok need_tls =>
    rw [hs] at h
    cases hres : env.resolveFails with
    | true => simp [hres] at h
    | false =>
      by_cases hnil : env.addrs = []
      · simp [hres, hnil] at h
      · cases hloop : connectLoop env.addrs with
        | error e => simp [hres, hnil, hloop] at h
        | ok a =>
          cases need_tls with
          | false =>
            have hld := schemeDispatch_ok_false scheme hs
            subst hld
            simp [hres, hnil, hloop] at h
            subst h
            exact ⟨rfl, rfl, by simp [LdapReadTransport.kind], by simp [LdapReadTransport.kind],
              hbind⟩
          | true =>
            have hld := schemeDispatch_ok_true scheme hs
            subst hld
            cases htls : tlsSetup env.tls a with
            | error e => simp [hres, hnil, hloop, htls] at h
            | ok tls =>
              simp [hres, hnil, hloop, htls] at h
              subst h
              exact ⟨rfl, rfl, by simp [LdapReadTransport.kind],
                by simp [LdapReadTransport.kind], hbind⟩

/-- C9 witness: the client built for a concrete ldaps environment has matching
Tls halves on the same stream. -/
theorem claim_C9_witness :
    tlsClient.read_transport.kind = tlsClient.write_transport.kind ∧
    tlsClient.read_transport.stream = tlsClient.write_transport.stream ∧
    (tlsClient.read_transport.kind = TransportKind.Tls ↔ "ldaps" = "ldaps") :=
  ⟨(claim_C9 "ldaps" envTls tlsClient rfl).1,
   (claim_C9 "ldaps" envTls tlsClient rfl).2.1,
   (claim_C9 "ldaps" envTls tlsClient rfl).2.2.1⟩

/-- C10 counterexample: on a client whose counter sits at i32::MAX = 2^31 - 1,
a bind call (here one failing its transport write) wraps the counter to
-2^31 instead of increasing it by exactly 1. -/
theorem claim_C10_counterexample :
    (maxCounterClient.bind "" "" WriteOutcome.ioError).1.msg_counter = -(2 ^ 31) ∧
    maxCounterClient.msg_counter = 2 ^ 31 - 1 ∧
    (-(2 ^ 31) : Int) ≠ (2 ^ 31 - 1) + 1 := by
  refine ⟨by decide, by decide, by decide⟩

/-- C10 amended: every bind call, on every path, sets msg_counter to the
wrapped i32 successor of its old value, which is an increase by exactly 1
whenever the old value is below i32::MAX; it leaves the write transport
untouched and preserves the read transport's variant and stream, consuming
one pending read event exactly when the write succeeded.  A failed bind
therefore still consumes a message id. -/
theorem claim_C10_amended (c : LdapClient) (dn pw : String) (w : WriteOutcome) :
    ((c.bind dn pw w).1.msg_counter = i32wrap (c.msg_counter + 1)) ∧
    (-(2 ^ 31) ≤ c.msg_counter → c.msg_counter ≤ 2 ^ 31 - 2 →
      (c.bind dn pw w).1.msg_counter = c.msg_counter + 1) ∧
    ((c.bind dn pw w).1.write_transport = c.write_transport) ∧
    ((c.bind dn pw w).1.read_transport.kind = c.read_transport.kind) ∧
    ((c.bind dn pw w).1.read_transport.stream = c.read_transport.stream) ∧
    (w = WriteOutcome.ioError → (c.bind dn pw w).1.read_transport = c.read_transport) ∧
    (w = WriteOutcome.ok →
      (c.bind dn pw w).1.read_transport.incoming = c.read_transport.incoming.tail) := by
  refine ⟨bind_counter c dn pw w, ?_, bind_write_transport c dn pw w,
    bind_read_kind c dn pw w, bind_read_stream c dn pw w, ?_, ?_⟩
  · intro hlo hhi
    rw [bind_counter c dn pw w, i32wrap_eq_self (c.msg_counter + 1) (by omega) (by omega)]
  · intro hw
    subst hw
    exact bind_read_ioError c dn pw
  · intro hw
    subst hw
    exact bind_read_incoming_ok c dn pw

/-- C10 witness: a failed bind on a concrete fresh client bumps the counter
from 1 to 2 and consumes the pending read event. -/
theorem claim_C10_witness :
    ((testClient [ReadEvent.ioError]).bind "" "" WriteOutcome.ok).1.msg_counter =
      (testClient [ReadEvent.ioError]).msg_counter + 1 ∧
    ((testClient [ReadEvent.ioError]).bind "" "" WriteOutcome.ok).1.read_transport.incoming =
      (testClient [ReadEvent.ioError]).read_transport.incoming.tail :=
  ⟨(claim_C10_amended (testClient [ReadEvent.ioError]) "" "" WriteOutcome.ok).2.1
      (by decide) (by decide),
   (claim_C10_amended (testClient [ReadEvent.ioError]) "" "" WriteOutcome.ok).2.2.2.2.2.2 rfl⟩
